import Mathlib

/-!
Verification of the entity motion model of the repository's two Rust/WASM
games, shallowly embedded in Lean over the reals (f64 arithmetic is modelled
as exact real arithmetic, `f64::sqrt` as `Real.sqrt`).

Embedded source:
  * `src/bevy-game/src/lib.rs` — `Sprite`, `Target`, `Sprite::update`,
    and the per-sprite body of `BevyGame::update_and_render`.
  * `src/rust-wasm-game/src/lib.rs` — `Ball`, `Ball::update`,
    `Ball::redirect_towards`, `GameState::update`.
-/

open Classical

noncomputable section

namespace BevySpec

/-- `Target` from `src/bevy-game/src/lib.rs` lines 18–23: a pursued point
with the respawn flag `find_new_target`. -/
structure Target where
  x : ℝ
  y : ℝ
  find_new_target : Bool

/-- `Sprite` from `src/bevy-game/src/lib.rs` lines 25–35. -/
structure Sprite where
  x : ℝ
  y : ℝ
  vx : ℝ
  vy : ℝ
  size : ℝ
  color : String
  rotation : ℝ
  target : Option Target

/-- Rust `v.max(lo).min(hi)` as used at lines 73, 77, 250, 251 of
`src/bevy-game/src/lib.rs`. -/
def clamp (lo hi v : ℝ) : ℝ :=
  min (max v lo) hi

/-- `Sprite::update` from `src/bevy-game/src/lib.rs` lines 64–83: free-mode
integration with per-axis bounce and clamp (only when `target` is none),
then unconditional rotation accumulation.  The bounce tests use the already
integrated position, exactly as the Rust mutates `self.x` first. -/
def Sprite.update (s : Sprite) (dt canvas_width canvas_height : ℝ) : Sprite :=
  if s.target.isNone then
    let x1 := s.x + s.vx * dt
    let y1 := s.y + s.vy * dt
    let bounceX : Prop := x1 ≤ s.size / 2 ∨ x1 ≥ canvas_width - s.size / 2
    let bounceY : Prop := y1 ≤ s.size / 2 ∨ y1 ≥ canvas_height - s.size / 2
    { s with
      x := if bounceX then clamp (s.size / 2) (canvas_width - s.size / 2) x1 else x1
      y := if bounceY then clamp (s.size / 2) (canvas_height - s.size / 2) y1 else y1
      vx := if bounceX then s.vx * (-1) else s.vx
      vy := if bounceY then s.vy * (-1) else s.vy
      rotation := s.rotation + dt * 2 }
  else
    { s with rotation := s.rotation + dt * 2 }

/-- Distance from a sprite to a target point, as computed at lines 214–216 of
`src/bevy-game/src/lib.rs`: `((dx*dx + dy*dy)).sqrt()`. -/
def distTo (s : Sprite) (t : Target) : ℝ :=
  Real.sqrt ((t.x - s.x) * (t.x - s.x) + (t.y - s.y) * (t.y - s.y))

/-- The per-sprite body of `BevyGame::update_and_render`
(`src/bevy-game/src/lib.rs` lines 211–252), the spec's
`advance(entity, dt, bounds)`:

  * seeking mode: compute the distance to the target; within tolerance 5
    either respawn the target (when `find_new_target`) from two randomness
    draws `r1, r2` (the two `js_sys::Math::random()` calls at lines 225–226)
    or clear it; otherwise move at speed 100 along the unit vector toward
    the target;
  * free mode: `Sprite::update`;
  * then `rotation += dt * 2.0` when the (possibly just updated) target is
    some (lines 245–247);
  * finally the unconditional clamp into bounds (lines 250–251).

The source fixes `dt = 0.016` per tick (line 207); the step is stated over
an arbitrary `dt` as in the spec's contract.  `size` is never written, so
the final clamp's `sprite.size` is `s.size`. -/
def advance (s : Sprite) (dt w h r1 r2 : ℝ) : Sprite :=
  let s1 :=
    match s.target with
    | some t =>
        let dx := t.x - s.x
        let dy := t.y - s.y
        let distance := Real.sqrt (dx * dx + dy * dy)
        let tolerance : ℝ := 5
        if distance ≤ tolerance then
          if t.find_new_target then
            { s with target := some ⟨r1 * (w - s.size) + s.size / 2,
                                     r2 * (h - s.size) + s.size / 2, true⟩ }
          else
            { s with target := none }
        else
          let speed : ℝ := 100
          { s with
            x := s.x + dx / distance * speed * dt
            y := s.y + dy / distance * speed * dt }
    | none => Sprite.update s dt w h
  let s2 := if s1.target.isSome then { s1 with rotation := s1.rotation + dt * 2 } else s1
  { s2 with
    x := clamp (s.size / 2) (w - s.size / 2) s2.x
    y := clamp (s.size / 2) (h - s.size / 2) s2.y }

/-- The seeking step on an advance clears a non-respawning target that is
within tolerance (lines 229–232 of `src/bevy-game/src/lib.rs`). -/
def clearsTarget (s : Sprite) : Prop :=
  match s.target with
  | some t => distTo s t ≤ 5 ∧ t.find_new_target = false
  | none => False

end BevySpec

namespace WasmSpec

/-- `Ball` from `src/rust-wasm-game/src/lib.rs` lines 16–23. -/
structure Ball where
  x : ℝ
  y : ℝ
  velocity_x : ℝ
  velocity_y : ℝ
  radius : ℝ

/-- Rust `v.clamp(lo, hi)` as used at lines 50–51 of
`src/rust-wasm-game/src/lib.rs` (the source only calls it with `lo ≤ hi`). -/
def rclamp (lo hi v : ℝ) : ℝ :=
  max lo (min v hi)

/-- `Ball::update` from `src/rust-wasm-game/src/lib.rs` lines 37–52:
integrate, reverse a velocity axis when the integrated position crosses a
wall, then clamp into `[radius, dim − radius]`. -/
def Ball.update (b : Ball) (delta_time canvas_width canvas_height : ℝ) : Ball :=
  let x1 := b.x + b.velocity_x * delta_time
  let y1 := b.y + b.velocity_y * delta_time
  let hitX : Prop := x1 + b.radius > canvas_width ∨ x1 - b.radius < 0
  let hitY : Prop := y1 + b.radius > canvas_height ∨ y1 - b.radius < 0
  { b with
    x := rclamp b.radius (canvas_width - b.radius) x1
    y := rclamp b.radius (canvas_height - b.radius) y1
    velocity_x := if hitX then -b.velocity_x else b.velocity_x
    velocity_y := if hitY then -b.velocity_y else b.velocity_y }

/-- `Ball::redirect_towards` from `src/rust-wasm-game/src/lib.rs`
lines 63–73: point the velocity at the target with speed 200, guarded by
`distance > 0`. -/
def Ball.redirect_towards (b : Ball) (target_x target_y : ℝ) : Ball :=
  let dx := target_x - b.x
  let dy := target_y - b.y
  let distance := Real.sqrt (dx * dx + dy * dy)
  if distance > 0 then
    { b with
      velocity_x := dx / distance * 200
      velocity_y := dy / distance * 200 }
  else
    b

/-- `GameState` from `src/rust-wasm-game/src/lib.rs` lines 77–82, restricted
to the fields the update logic touches (`canvas` and `context` are host I/O
collaborators; the canvas dimensions are passed explicitly). -/
structure GameState where
  ball : Ball
  last_frame_time : ℝ

/-- `GameState::update` from `src/rust-wasm-game/src/lib.rs` lines 109–123:
delta time is the 0.016 fallback when no previous timestamp was recorded
(`last_frame_time == 0.0`), otherwise `(current_time − last) / 1000`; the
timestamp is recorded and the ball updated (rendering is external I/O). -/
def GameState.update (g : GameState) (current_time canvas_width canvas_height : ℝ) :
    GameState :=
  let delta_time := if g.last_frame_time = 0 then (0.016 : ℝ)
    else (current_time - g.last_frame_time) / 1000
  { ball := g.ball.update delta_time canvas_width canvas_height
    last_frame_time := current_time }

end WasmSpec

namespace BevySpec

/-- The clamped value is at least the lower bound when the bounds are
ordered. -/
lemma le_clamp (lo hi v : ℝ) (h : lo ≤ hi) : lo ≤ clamp lo hi v :=
  le_min (le_max_right v lo) h

/-- The clamped value never exceeds the upper bound. -/
lemma clamp_le (lo hi v : ℝ) : clamp lo hi v ≤ hi :=
  min_le_right _ _

/-- Clamping an in-range value is the identity. -/
lemma clamp_of_mem (lo hi v : ℝ) (h1 : lo ≤ v) (h2 : v ≤ hi) : clamp lo hi v = v := by
  rw [clamp, max_eq_left h1, min_eq_left h2]

/-- `Sprite::update` never writes the `target` field. -/
lemma update_target (s : Sprite) (dt w h : ℝ) :
    (Sprite.update s dt w h).target = s.target := by
  rw [Sprite.update]
  split_ifs <;> rfl

/-- `Sprite::update` always accumulates rotation by `dt * 2`. -/
lemma update_rotation (s : Sprite) (dt w h : ℝ) :
    (Sprite.update s dt w h).rotation = s.rotation + dt * 2 := by
  rw [Sprite.update]
  split_ifs <;> rfl

/-- Explicit form of `Sprite::update` in free mode. -/
lemma update_free_eq (s : Sprite) (dt w h : ℝ) (ht : s.target = none) :
    Sprite.update s dt w h =
      { s with
        x := if s.x + s.vx * dt ≤ s.size / 2 ∨ s.x + s.vx * dt ≥ w - s.size / 2
             then clamp (s.size / 2) (w - s.size / 2) (s.x + s.vx * dt)
             else s.x + s.vx * dt
        y := if s.y + s.vy * dt ≤ s.size / 2 ∨ s.y + s.vy * dt ≥ h - s.size / 2
             then clamp (s.size / 2) (h - s.size / 2) (s.y + s.vy * dt)
             else s.y + s.vy * dt
        vx := if s.x + s.vx * dt ≤ s.size / 2 ∨ s.x + s.vx * dt ≥ w - s.size / 2
              then s.vx * (-1) else s.vx
        vy := if s.y + s.vy * dt ≤ s.size / 2 ∨ s.y + s.vy * dt ≥ h - s.size / 2
              then s.vy * (-1) else s.vy
        rotation := s.rotation + dt * 2 } := by
  rw [Sprite.update, ht]
  simp

/-- Free mode: `advance` is `Sprite::update` followed by the final clamp. -/
lemma advance_free (s : Sprite) (dt w h r1 r2 : ℝ) (ht : s.target = none) :
    advance s dt w h r1 r2 =
      { Sprite.update s dt w h with
        x := clamp (s.size / 2) (w - s.size / 2) (Sprite.update s dt w h).x
        y := clamp (s.size / 2) (h - s.size / 2) (Sprite.update s dt w h).y } := by
  rw [advance, ht]
  simp [update_target, ht]

/-- Seeking mode beyond tolerance: `advance` moves along the unit vector to
the target at speed 100, accumulates rotation, and clamps. -/
lemma advance_seek (s : Sprite) (t : Target) (dt w h r1 r2 : ℝ)
    (ht : s.target = some t) (hd : 5 < distTo s t) :
    advance s dt w h r1 r2 =
      { s with
        x := clamp (s.size / 2) (w - s.size / 2)
              (s.x + (t.x - s.x) / distTo s t * 100 * dt)
        y := clamp (s.size / 2) (h - s.size / 2)
              (s.y + (t.y - s.y) / distTo s t * 100 * dt)
        rotation := s.rotation + dt * 2 } := by
  rw [advance, ht]
  simp only [distTo] at hd
  simp [not_le.mpr hd, ht, distTo]

/-- Reaching a non-respawning target: `advance` clears the target, clamps
the position, and — because the cleared target fails the `is_some` test at
line 245 — leaves rotation unchanged. -/
lemma advance_reach_clear (s : Sprite) (t : Target) (dt w h r1 r2 : ℝ)
    (ht : s.target = some t) (hd : distTo s t ≤ 5) (hf : t.find_new_target = false) :
    advance s dt w h r1 r2 =
      { s with
        x := clamp (s.size / 2) (w - s.size / 2) s.x
        y := clamp (s.size / 2) (h - s.size / 2) s.y
        target := none } := by
  rw [advance, ht]
  simp only [distTo] at hd
  simp [hd, hf]

/-- Reaching a respawning target: `advance` installs the freshly drawn
target, accumulates rotation, and clamps the position. -/
lemma advance_reach_respawn (s : Sprite) (t : Target) (dt w h r1 r2 : ℝ)
    (ht : s.target = some t) (hd : distTo s t ≤ 5) (hf : t.find_new_target = true) :
    advance s dt w h r1 r2 =
      { s with
        x := clamp (s.size / 2) (w - s.size / 2) s.x
        y := clamp (s.size / 2) (h - s.size / 2) s.y
        rotation := s.rotation + dt * 2
        target := some ⟨r1 * (w - s.size) + s.size / 2,
                        r2 * (h - s.size) + s.size / 2, true⟩ } := by
  rw [advance, ht]
  simp only [distTo] at hd
  simp [hd, hf]

/-- In every branch of `advance` the resulting position is the clamp of some
value into `[size/2, dim − size/2]`. -/
lemma advance_x_y (s : Sprite) (dt w h r1 r2 : ℝ) :
    ∃ a b, (advance s dt w h r1 r2).x = clamp (s.size / 2) (w - s.size / 2) a ∧
           (advance s dt w h r1 r2).y = clamp (s.size / 2) (h - s.size / 2) b := by
  rcases ht : s.target with _ | t
  · rw [advance_free s dt w h r1 r2 ht]
    exact ⟨_, _, rfl, rfl⟩
  · rcases le_or_lt (distTo s t) 5 with hd | hd
    · cases hf : t.find_new_target
      · rw [advance_reach_clear s t dt w h r1 r2 ht hd hf]
        exact ⟨_, _, rfl, rfl⟩
      · rw [advance_reach_respawn s t dt w h r1 r2 ht hd hf]
        exact ⟨_, _, rfl, rfl⟩
    · rw [advance_seek s t dt w h r1 r2 ht hd]
      exact ⟨_, _, rfl, rfl⟩

/-- C1 (confirmed): for every entity, every `dt ≥ 0`, and every bounds with
`width ≥ size` and `height ≥ size`, after one advance step the position
satisfies `size/2 ≤ x ≤ width − size/2` and `size/2 ≤ y ≤ height − size/2`. -/
theorem C1_boundary_containment (s : Sprite) (dt w h r1 r2 : ℝ)
    (_hdt : 0 ≤ dt) (hw : s.size ≤ w) (hh : s.size ≤ h) :
    s.size / 2 ≤ (advance s dt w h r1 r2).x ∧
    (advance s dt w h r1 r2).x ≤ w - s.size / 2 ∧
    s.size / 2 ≤ (advance s dt w h r1 r2).y ∧
    (advance s dt w h r1 r2).y ≤ h - s.size / 2 := by
  obtain ⟨a, b, hx, hy⟩ := advance_x_y s dt w h r1 r2
  rw [hx, hy]
  exact ⟨le_clamp _ _ _ (by linarith), clamp_le _ _ _,
         le_clamp _ _ _ (by linarith), clamp_le _ _ _⟩

/-- Witness for C1 at a concrete free-mode entity in an 800×600 arena. -/
theorem C1_witness :
    (0 : ℝ) ≤ 0.1 ∧ (10 : ℝ) ≤ 800 ∧ (10 : ℝ) ≤ 600 ∧
    ((10 : ℝ) / 2 ≤ (advance ⟨100, 100, 50, 25, 10, "c", 0, none⟩ 0.1 800 600 0 0).x ∧
     (advance ⟨100, 100, 50, 25, 10, "c", 0, none⟩ 0.1 800 600 0 0).x ≤ 800 - 10 / 2 ∧
     (10 : ℝ) / 2 ≤ (advance ⟨100, 100, 50, 25, 10, "c", 0, none⟩ 0.1 800 600 0 0).y ∧
     (advance ⟨100, 100, 50, 25, 10, "c", 0, none⟩ 0.1 800 600 0 0).y ≤ 600 - 10 / 2) :=
  ⟨by norm_num, by norm_num, by norm_num,
   C1_boundary_containment ⟨100, 100, 50, 25, 10, "c", 0, none⟩ 0.1 800 600 0 0
     (by norm_num) (by norm_num) (by norm_num)⟩

/-- C2 (counterexample): a free-mode entity at `x = 0` with `vx = −50` and
size 10 has its velocity sign-flipped by an advance with `dt = 0`, so the
zero-dt step does not leave every entity's state unchanged. -/
theorem C2_counterexample :
    (advance ⟨0, 100, -50, 0, 10, "c", 0, none⟩ 0 800 600 0 0).vx
      ≠ (⟨0, 100, -50, 0, 10, "c", 0, none⟩ : Sprite).vx := by
  rw [advance_free _ 0 800 600 0 0 rfl]
  norm_num [Sprite.update, clamp]

/-- C2 (amended): an advance with `dt = 0` leaves position, velocity,
rotation, and target unchanged for every entity strictly inside the bounds
interior whose target (if any) is strictly beyond the tolerance of 5. -/
theorem C2_zero_dt (s : Sprite) (w h r1 r2 : ℝ)
    (hx1 : s.size / 2 < s.x) (hx2 : s.x < w - s.size / 2)
    (hy1 : s.size / 2 < s.y) (hy2 : s.y < h - s.size / 2)
    (htol : ∀ t, s.target = some t → 5 < distTo s t) :
    advance s 0 w h r1 r2 = s := by
  rcases ht : s.target with _ | t
  · rw [advance_free s 0 w h r1 r2 ht, update_free_eq s 0 w h ht]
    have e1 : s.x + s.vx * 0 = s.x := by ring
    have e2 : s.y + s.vy * 0 = s.y := by ring
    rw [e1, e2]
    have hbx : ¬(s.x ≤ s.size / 2 ∨ s.x ≥ w - s.size / 2) := by
      push_neg
      exact ⟨hx1, hx2⟩
    have hby : ¬(s.y ≤ s.size / 2 ∨ s.y ≥ h - s.size / 2) := by
      push_neg
      exact ⟨hy1, hy2⟩
    simp [hbx, hby, clamp_of_mem _ _ _ (le_of_lt hx1) (le_of_lt hx2),
          clamp_of_mem _ _ _ (le_of_lt hy1) (le_of_lt hy2)]
    have h1 : ¬(s.x ≤ s.size / 2 ∨ w ≤ s.x + s.size / 2) := by
      push_neg
      constructor <;> linarith
    have h2 : ¬(s.y ≤ s.size / 2 ∨ h ≤ s.y + s.size / 2) := by
      push_neg
      constructor <;> linarith
    rw [if_neg h1, if_neg h2]
  · rw [advance_seek s t 0 w h r1 r2 ht (htol t ht)]
    have e1 : s.x + (t.x - s.x) / distTo s t * 100 * 0 = s.x := by ring
    have e2 : s.y + (t.y - s.y) / distTo s t * 100 * 0 = s.y := by ring
    rw [e1, e2, clamp_of_mem _ _ _ (le_of_lt hx1) (le_of_lt hx2),
        clamp_of_mem _ _ _ (le_of_lt hy1) (le_of_lt hy2)]
    simp

/-- Witness for the amended C2 at a concrete interior free-mode entity. -/
theorem C2_witness :
    (10 : ℝ) / 2 < 100 ∧ (100 : ℝ) < 800 - 10 / 2 ∧
    (10 : ℝ) / 2 < 100 ∧ (100 : ℝ) < 600 - 10 / 2 ∧
    advance ⟨100, 100, 50, 25, 10, "c", 1, none⟩ 0 800 600 0 0
      = ⟨100, 100, 50, 25, 10, "c", 1, none⟩ :=
  ⟨by norm_num, by norm_num, by norm_num, by norm_num,
   C2_zero_dt ⟨100, 100, 50, 25, 10, "c", 1, none⟩ 800 600 0 0
     (by norm_num) (by norm_num) (by norm_num) (by norm_num)
     (fun t ht => by simp at ht)⟩

/-- C3 (counterexample): on the step that reaches a non-respawning target
(distance `0 ≤ 5`), rotation is left unchanged rather than increased by
`2·dt`: the `is_some` test at line 245 sees the already cleared target. -/
theorem C3_counterexample :
    (advance ⟨100, 100, 0, 0, 10, "c", 0, some ⟨100, 100, false⟩⟩ 1 800 600 0 0).rotation
      ≠ (⟨100, 100, 0, 0, 10, "c", 0, some ⟨100, 100, false⟩⟩ : Sprite).rotation + 2 * 1 := by
  rw [advance_reach_clear _ ⟨100, 100, false⟩ 1 800 600 0 0 rfl
        (by norm_num [distTo, Real.sqrt_zero]) rfl]
  norm_num

/-- C3 (amended): one advance step yields
`rotation_after = rotation_before + 2·dt` in every case except the step that
reaches (distance ≤ 5) a non-respawning target and clears it, where the
rotation is left unchanged. -/
theorem C3_rotation (s : Sprite) (dt w h r1 r2 : ℝ) :
    (clearsTarget s → (advance s dt w h r1 r2).rotation = s.rotation) ∧
    (¬ clearsTarget s → (advance s dt w h r1 r2).rotation = s.rotation + dt * 2) := by
  constructor
  · intro hc
    rcases ht : s.target with _ | t
    · simp only [clearsTarget, ht] at hc
    · simp only [clearsTarget, ht] at hc
      rw [advance_reach_clear s t dt w h r1 r2 ht hc.1 hc.2]
  · intro hc
    rcases ht : s.target with _ | t
    · rw [advance_free s dt w h r1 r2 ht]
      exact update_rotation s dt w h
    · simp only [clearsTarget, ht, not_and] at hc
      rcases le_or_lt (distTo s t) 5 with hd | hd
      · have hf : t.find_new_target = true := by
          rcases hf : t.find_new_target
          · exact absurd hf (hc hd)
          · rfl
        rw [advance_reach_respawn s t dt w h r1 r2 ht hd hf]
      · rw [advance_seek s t dt w h r1 r2 ht hd]

/-- Witness for the amended C3 at a concrete free-mode entity. -/
theorem C3_witness :
    ¬ clearsTarget ⟨100, 100, 50, 25, 10, "c", 0, none⟩ ∧
    (advance ⟨100, 100, 50, 25, 10, "c", 0, none⟩ 1 800 600 0 0).rotation
      = (⟨100, 100, 50, 25, 10, "c", 0, none⟩ : Sprite).rotation + 1 * 2 :=
  ⟨fun hc => hc,
   (C3_rotation ⟨100, 100, 50, 25, 10, "c", 0, none⟩ 1 800 600 0 0).2 (fun hc => hc)⟩

/-- C4 (counterexample): an entity with stored velocity `(−100, 150)` that
reaches its non-respawning target moves again on the following advance step
(free-mode integration resumes once `target = none`), so its position does
not stay fixed. -/
theorem C4_counterexample :
    (advance (advance ⟨150, 100, -100, 150, 10, "c", 0, some ⟨150, 100, false⟩⟩
        0.1 800 600 0 0) 0.1 800 600 0 0).x
      ≠ (⟨150, 100, -100, 150, 10, "c", 0, some ⟨150, 100, false⟩⟩ : Sprite).x := by
  have h1 : advance ⟨150, 100, -100, 150, 10, "c", 0, some ⟨150, 100, false⟩⟩ 0.1 800 600 0 0
      = ⟨150, 100, -100, 150, 10, "c", 0, none⟩ := by
    rw [advance_reach_clear _ ⟨150, 100, false⟩ 0.1 800 600 0 0 rfl
          (by norm_num [distTo, Real.sqrt_zero]) rfl]
    norm_num [clamp, max_def, min_def]
  rw [h1, advance_free _ 0.1 800 600 0 0 rfl]
  norm_num [Sprite.update, clamp, max_def, min_def]

/-- C4 (amended): the step that reaches a non-respawning target clears the
target and leaves the velocity fields untouched; on subsequent steps
free-mode bounce motion resumes with that stored velocity, so the position
stays unchanged only when the stored velocity is zero (and the position is
within bounds). -/
theorem C4_cleared_target (s : Sprite) (t : Target) (dt w h r1 r2 : ℝ)
    (ht : s.target = some t) (hd : distTo s t ≤ 5) (hf : t.find_new_target = false) :
    ((advance s dt w h r1 r2).target = none ∧
     (advance s dt w h r1 r2).vx = s.vx ∧ (advance s dt w h r1 r2).vy = s.vy) ∧
    (∀ s' : Sprite, s'.target = none → s'.vx = 0 → s'.vy = 0 →
      s'.size / 2 ≤ s'.x → s'.x ≤ w - s'.size / 2 →
      s'.size / 2 ≤ s'.y → s'.y ≤ h - s'.size / 2 →
      ∀ dt' r1' r2',
        (advance s' dt' w h r1' r2').x = s'.x ∧ (advance s' dt' w h r1' r2').y = s'.y) := by
  constructor
  · rw [advance_reach_clear s t dt w h r1 r2 ht hd hf]
    exact ⟨rfl, rfl, rfl⟩
  · intro s' ht' hvx hvy h1 h2 h3 h4 dt' r1' r2'
    rw [advance_free s' dt' w h r1' r2' ht', update_free_eq s' dt' w h ht']
    have e1 : s'.x + s'.vx * dt' = s'.x := by rw [hvx]; ring
    have e2 : s'.y + s'.vy * dt' = s'.y := by rw [hvy]; ring
    rw [e1, e2]
    constructor
    · show clamp _ _ (if s'.x ≤ s'.size / 2 ∨ s'.x ≥ w - s'.size / 2
          then clamp (s'.size / 2) (w - s'.size / 2) s'.x else s'.x) = s'.x
      split_ifs with hcond
      · rw [clamp_of_mem _ _ _ h1 h2, clamp_of_mem _ _ _ h1 h2]
      · rw [clamp_of_mem _ _ _ h1 h2]
    · show clamp _ _ (if s'.y ≤ s'.size / 2 ∨ s'.y ≥ h - s'.size / 2
          then clamp (s'.size / 2) (h - s'.size / 2) s'.y else s'.y) = s'.y
      split_ifs with hcond
      · rw [clamp_of_mem _ _ _ h3 h4, clamp_of_mem _ _ _ h3 h4]
      · rw [clamp_of_mem _ _ _ h3 h4]

/-- Witness for the amended C4 at a concrete entity sitting on its
non-respawning target. -/
theorem C4_witness :
    distTo ⟨150, 100, -100, 150, 10, "c", 0, some ⟨150, 100, false⟩⟩ ⟨150, 100, false⟩ ≤ 5 ∧
    (advance ⟨150, 100, -100, 150, 10, "c", 0, some ⟨150, 100, false⟩⟩ 1 800 600 0 0).target
      = none :=
  ⟨by norm_num [distTo, Real.sqrt_zero],
   (C4_cleared_target ⟨150, 100, -100, 150, 10, "c", 0, some ⟨150, 100, false⟩⟩
      ⟨150, 100, false⟩ 1 800 600 0 0 rfl (by norm_num [distTo, Real.sqrt_zero]) rfl).1.1⟩

/-- C5 (confirmed): in free mode a bouncing axis has its velocity component
exactly sign-flipped, the squared speed is conserved, and the concrete
scenario — entity at `(5,100)`, velocity `(−50,0)`, size 10, `dt = 0.1`,
bounds `(800,600)` — ends clamped at `x = 5` with velocity `(50,0)`. -/
theorem C5_lossless_bounce (s : Sprite) (dt w h r1 r2 : ℝ) (ht : s.target = none) :
    (((s.x + s.vx * dt ≤ s.size / 2 ∨ s.x + s.vx * dt ≥ w - s.size / 2) →
       (advance s dt w h r1 r2).vx = -s.vx) ∧
     ((s.y + s.vy * dt ≤ s.size / 2 ∨ s.y + s.vy * dt ≥ h - s.size / 2) →
       (advance s dt w h r1 r2).vy = -s.vy) ∧
     ((advance s dt w h r1 r2).vx ^ 2 + (advance s dt w h r1 r2).vy ^ 2
       = s.vx ^ 2 + s.vy ^ 2)) ∧
    advance ⟨5, 100, -50, 0, 10, "c", 0, none⟩ 0.1 800 600 r1 r2
      = ⟨5, 100, 50, 0, 10, "c", 0.2, none⟩ := by
  rw [advance_free s dt w h r1 r2 ht, update_free_eq s dt w h ht]
  refine ⟨⟨?_, ?_, ?_⟩, ?_⟩
  · intro hb
    show (if s.x + s.vx * dt ≤ s.size / 2 ∨ s.x + s.vx * dt ≥ w - s.size / 2
          then s.vx * (-1) else s.vx) = -s.vx
    rw [if_pos hb]
    ring
  · intro hb
    show (if s.y + s.vy * dt ≤ s.size / 2 ∨ s.y + s.vy * dt ≥ h - s.size / 2
          then s.vy * (-1) else s.vy) = -s.vy
    rw [if_pos hb]
    ring
  · show (if s.x + s.vx * dt ≤ s.size / 2 ∨ s.x + s.vx * dt ≥ w - s.size / 2
          then s.vx * (-1) else s.vx) ^ 2 +
         (if s.y + s.vy * dt ≤ s.size / 2 ∨ s.y + s.vy * dt ≥ h - s.size / 2
          then s.vy * (-1) else s.vy) ^ 2 = s.vx ^ 2 + s.vy ^ 2
    split_ifs <;> ring
  · rw [advance_free _ 0.1 800 600 r1 r2 rfl]
    norm_num [Sprite.update, clamp, max_def, min_def]

/-- Witness for C5 at the concrete left-edge bounce scenario. -/
theorem C5_witness :
    (⟨5, 100, -50, 0, 10, "c", 0, none⟩ : Sprite).target = none ∧
    ((5 : ℝ) + -50 * 0.1 ≤ 10 / 2 ∨ (5 : ℝ) + -50 * 0.1 ≥ 800 - 10 / 2) ∧
    (advance ⟨5, 100, -50, 0, 10, "c", 0, none⟩ 0.1 800 600 0 0).vx = -(-50) :=
  ⟨rfl, by norm_num,
   (C5_lossless_bounce ⟨5, 100, -50, 0, 10, "c", 0, none⟩ 0.1 800 600 0 0 rfl).1.1
     (by norm_num)⟩

/-- C6 (confirmed): a seeking entity strictly beyond the tolerance of 5
moves by `(dx/distance)·100·dt` on each axis, is then clamped into bounds,
and keeps its velocity fields `vx`, `vy` (and its target) unchanged. -/
theorem C6_seek_step (s : Sprite) (t : Target) (dt w h r1 r2 : ℝ)
    (ht : s.target = some t) (hd : 5 < distTo s t) :
    advance s dt w h r1 r2 =
      { s with
        x := clamp (s.size / 2) (w - s.size / 2)
              (s.x + (t.x - s.x) / distTo s t * 100 * dt)
        y := clamp (s.size / 2) (h - s.size / 2)
              (s.y + (t.y - s.y) / distTo s t * 100 * dt)
        rotation := s.rotation + dt * 2 } :=
  advance_seek s t dt w h r1 r2 ht hd

/-- Witness for C6 at a concrete entity 100 units left of its target. -/
theorem C6_witness :
    (⟨100, 100, 7, 8, 10, "c", 0, some ⟨200, 100, true⟩⟩ : Sprite).target
      = some ⟨200, 100, true⟩ ∧
    (5 : ℝ) < distTo ⟨100, 100, 7, 8, 10, "c", 0, some ⟨200, 100, true⟩⟩ ⟨200, 100, true⟩ ∧
    advance ⟨100, 100, 7, 8, 10, "c", 0, some ⟨200, 100, true⟩⟩ 1 800 600 0 0 =
      { (⟨100, 100, 7, 8, 10, "c", 0, some ⟨200, 100, true⟩⟩ : Sprite) with
        x := clamp (10 / 2) (800 - 10 / 2)
              (100 + (200 - 100) /
                distTo ⟨100, 100, 7, 8, 10, "c", 0, some ⟨200, 100, true⟩⟩ ⟨200, 100, true⟩
                * 100 * 1)
        y := clamp (10 / 2) (600 - 10 / 2)
              (100 + (100 - 100) /
                distTo ⟨100, 100, 7, 8, 10, "c", 0, some ⟨200, 100, true⟩⟩ ⟨200, 100, true⟩
                * 100 * 1)
        rotation := 0 + 1 * 2 } :=
  ⟨rfl,
   by
     norm_num [distTo]
     rw [show (10000 : ℝ) = 100 ^ 2 by norm_num, Real.sqrt_sq (by norm_num : (0:ℝ) ≤ 100)]
     norm_num,
   C6_seek_step ⟨100, 100, 7, 8, 10, "c", 0, some ⟨200, 100, true⟩⟩ ⟨200, 100, true⟩
     1 800 600 0 0 rfl
     (by
       norm_num [distTo]
       rw [show (10000 : ℝ) = 100 ^ 2 by norm_num, Real.sqrt_sq (by norm_num : (0:ℝ) ≤ 100)]
       norm_num)⟩

/-- C7 (confirmed): a respawning seeking entity within tolerance, given
randomness draws in `[0, 1)` and bounds at least as large as the entity,
receives a new target whose point lies in
`[size/2, width − size/2] × [size/2, height − size/2]` with `respawns` still
true. -/
theorem C7_respawn_liveness (s : Sprite) (t : Target) (dt w h r1 r2 : ℝ)
    (ht : s.target = some t) (hd : distTo s t ≤ 5) (hf : t.find_new_target = true)
    (hr1 : 0 ≤ r1) (hr1' : r1 < 1) (hr2 : 0 ≤ r2) (hr2' : r2 < 1)
    (hw : s.size ≤ w) (hh : s.size ≤ h) :
    ∃ t', (advance s dt w h r1 r2).target = some t' ∧ t'.find_new_target = true ∧
      s.size / 2 ≤ t'.x ∧ t'.x ≤ w - s.size / 2 ∧
      s.size / 2 ≤ t'.y ∧ t'.y ≤ h - s.size / 2 := by
  rw [advance_reach_respawn s t dt w h r1 r2 ht hd hf]
  have hw1 : 0 ≤ r1 * (w - s.size) := mul_nonneg hr1 (by linarith)
  have hw2 : r1 * (w - s.size) ≤ w - s.size :=
    mul_le_of_le_one_left (by linarith) (le_of_lt hr1')
  have hh1 : 0 ≤ r2 * (h - s.size) := mul_nonneg hr2 (by linarith)
  have hh2 : r2 * (h - s.size) ≤ h - s.size :=
    mul_le_of_le_one_left (by linarith) (le_of_lt hr2')
  exact ⟨_, rfl, rfl, by linarith, by linarith, by linarith, by linarith⟩

/-- Witness for C7 at a concrete entity 2 units from its respawning target
with randomness draws `1/2`. -/
theorem C7_witness :
    distTo ⟨100, 100, 0, 0, 10, "c", 0, some ⟨102, 100, true⟩⟩ ⟨102, 100, true⟩ ≤ 5 ∧
    (∃ t', (advance ⟨100, 100, 0, 0, 10, "c", 0, some ⟨102, 100, true⟩⟩
              1 800 600 (1/2) (1/2)).target = some t' ∧ t'.find_new_target = true ∧
      (10 : ℝ) / 2 ≤ t'.x ∧ t'.x ≤ 800 - 10 / 2 ∧
      (10 : ℝ) / 2 ≤ t'.y ∧ t'.y ≤ 600 - 10 / 2) :=
  ⟨by
     norm_num [distTo]
     rw [show (4 : ℝ) = 2 ^ 2 by norm_num, Real.sqrt_sq (by norm_num : (0:ℝ) ≤ 2)]
     norm_num,
   C7_respawn_liveness ⟨100, 100, 0, 0, 10, "c", 0, some ⟨102, 100, true⟩⟩ ⟨102, 100, true⟩
     1 800 600 (1/2) (1/2) rfl
     (by
       norm_num [distTo]
       rw [show (4 : ℝ) = 2 ^ 2 by norm_num, Real.sqrt_sq (by norm_num : (0:ℝ) ≤ 2)]
       norm_num)
     rfl (by norm_num) (by norm_num) (by norm_num) (by norm_num) (by norm_num) (by norm_num)⟩

/-- C10 (confirmed): for a sprite whose target is some, the public
`Sprite::update` leaves `x`, `y`, `vx`, `vy` (and the target) unchanged and
only adds `2·dt` to the rotation. -/
theorem C10_sprite_update_seeking (s : Sprite) (dt w h : ℝ) (t : Target)
    (ht : s.target = some t) :
    Sprite.update s dt w h = { s with rotation := s.rotation + dt * 2 } := by
  simp [Sprite.update, ht]

/-- Witness for C10 at a concrete targeted sprite. -/
theorem C10_witness :
    (⟨1, 2, 3, 4, 10, "c", 0, some ⟨5, 6, true⟩⟩ : Sprite).target = some ⟨5, 6, true⟩ ∧
    Sprite.update ⟨1, 2, 3, 4, 10, "c", 0, some ⟨5, 6, true⟩⟩ 1 800 600 =
      ⟨1, 2, 3, 4, 10, "c", 0 + 1 * 2, some ⟨5, 6, true⟩⟩ :=
  ⟨rfl, C10_sprite_update_seeking ⟨1, 2, 3, 4, 10, "c", 0, some ⟨5, 6, true⟩⟩ 1 800 600
    ⟨5, 6, true⟩ rfl⟩

end BevySpec

namespace WasmSpec

/-- C8 (counterexample): on the very first tick after a clock reset the ball
does move — `update` falls back to `dt = 0.016` instead of performing no
motion, so the ball at `(400, 300)` with velocity `(150, 100)` ends at
`x = 402.4`. -/
theorem C8_counterexample :
    (GameState.update ⟨⟨400, 300, 150, 100, 20⟩, 0⟩ 1000 800 600).ball.x
      ≠ (⟨⟨400, 300, 150, 100, 20⟩, 0⟩ : GameState).ball.x := by
  norm_num [GameState.update, Ball.update, rclamp, max_def, min_def]

/-- C8 (amended): on the very first tick after a clock reset, `update`
records the timestamp as the new baseline and advances the ball one step
with the fixed fallback `dt = 0.016` — motion does occur on that tick. -/
theorem C8_first_tick_fallback (g : GameState) (t w h : ℝ)
    (h0 : g.last_frame_time = 0) :
    GameState.update g t w h = ⟨Ball.update g.ball 0.016 w h, t⟩ := by
  simp [GameState.update, h0]

/-- Witness for the amended C8 at a concrete freshly reset game state. -/
theorem C8_witness :
    (⟨⟨1, 2, 3, 4, 5⟩, 0⟩ : GameState).last_frame_time = 0 ∧
    GameState.update ⟨⟨1, 2, 3, 4, 5⟩, 0⟩ 500 800 600
      = ⟨Ball.update ⟨1, 2, 3, 4, 5⟩ 0.016 800 600, 500⟩ :=
  ⟨rfl, C8_first_tick_fallback ⟨⟨1, 2, 3, 4, 5⟩, 0⟩ 500 800 600 rfl⟩

/-- C9 (confirmed): redirecting the ball toward its own position computes
distance 0, the `distance > 0` guard fails, and the ball — velocity
included — is unchanged, so no division by zero occurs. -/
theorem C9_redirect_towards_self (b : Ball) :
    Ball.redirect_towards b b.x b.y = b := by
  simp [Ball.redirect_towards]

end WasmSpec

end
